import Mathlib

/-!
# Verification of the chess-coach analysis core

Shallow embedding, in Lean 4, of the post-game analysis pipeline of the
`Himadxb/Chess` repository (files `engine_manager.py`, `analyzer.py`,
`game_loop.py`, `coach_llm.py`), together with theorems settling the
specification claims about it.

Conventions of the embedding:
* Python floats carrying centipawn values are modelled as rationals (`ℚ`);
  every float the program manipulates is a rational number.
* The external chess-rules library (`python-chess`) and the Stockfish engine
  are external collaborators: they appear as abstract parameters (functions
  or a `Rules` structure of operations), never reimplemented.
* Python's `round(x, 1)` and `"{:.0f}"` formatting round half to even; the
  helpers `roundHalfEven` / `roundTo1` reproduce that on `ℚ`.
* Python's stable `sorted(..., reverse=True)` is modelled by `List.mergeSort`
  with a non-strict descending comparison, which has the same stable
  semantics.
-/

namespace Chess

/-- Round half to even (banker's rounding), as Python's `round` and float
formatting do, returning an integer. -/
def roundHalfEven (q : ℚ) : ℤ :=
  let f : ℤ := ⌊q⌋
  let r : ℚ := q - f
  if r < 1/2 then f
  else if 1/2 < r then f + 1
  else if f % 2 = 0 then f else f + 1

/-- Python's `round(x, 1)`: round to one decimal place, half to even. -/
def roundTo1 (q : ℚ) : ℚ :=
  (roundHalfEven (10 * q) : ℚ) / 10

/-- Python's `f"{x:.0f}"`: format with no decimals, rounding half to even. -/
def fmt0 (q : ℚ) : String :=
  toString (roundHalfEven q)

/-- Python's `str(x)` for a nonnegative float produced by `round(_, 1)`:
one decimal digit is always printed (`"85.7"`, `"0.0"`, `"100.0"`). -/
def fmtAcc (q : ℚ) : String :=
  let n : ℤ := roundHalfEven (10 * q)
  toString (n / 10) ++ "." ++ toString (n % 10)

/-- `engine_manager.MoveEvaluation`: evaluation data for a single move. -/
structure MoveEvaluation where
  move_san : String
  fen_before : String
  fen_after : String
  eval_before : ℚ    -- centipawns (from White's perspective)
  eval_after : ℚ     -- centipawns (from White's perspective)
  best_move_san : String
  score_delta : ℚ    -- negative means the move was bad for the side to move
  played_by : String -- "white" or "black"
  deriving DecidableEq, Repr

/-- `MoveEvaluation.classification`: classify the quality of the move
based on centipawn loss. -/
def MoveEvaluation.classification (m : MoveEvaluation) : String :=
  let loss := |m.score_delta|
  if loss < 10 then "Best"
  else if loss < 50 then "Good"
  else if loss < 100 then "Inaccuracy"
  else if loss < 200 then "Mistake"
  else "Blunder"

/-- `game_loop.MoveRecord`: a single move record captured during a game.
The `timestamp` default (`datetime.utcnow`) is an external wall clock; the
game loop never passes it explicitly, so records it creates carry `""`. -/
structure MoveRecord where
  move_number : ℕ
  played_by : String  -- "white" or "black"
  san : String
  uci : String
  fen_before : String
  fen_after : String
  timestamp : String
  deriving DecidableEq, Repr

/-- `analyzer.GameReport`: full analysis report for a completed game. -/
structure GameReport where
  evaluated_moves : List MoveEvaluation
  total_moves : ℕ
  player_color : String
  deriving DecidableEq, Repr

/-- `GameReport.player_moves`. -/
def GameReport.player_moves (r : GameReport) : List MoveEvaluation :=
  r.evaluated_moves.filter (fun m => m.played_by == r.player_color)

/-- `GameReport.blunders`. -/
def GameReport.blunders (r : GameReport) : List MoveEvaluation :=
  r.player_moves.filter (fun m => m.classification == "Blunder")

/-- `GameReport.mistakes`. -/
def GameReport.mistakes (r : GameReport) : List MoveEvaluation :=
  r.player_moves.filter (fun m => m.classification == "Mistake")

/-- `GameReport.inaccuracies`. -/
def GameReport.inaccuracies (r : GameReport) : List MoveEvaluation :=
  r.player_moves.filter (fun m => m.classification == "Inaccuracy")

/-- `GameReport.accuracy_percentage`: percentage of player moves that are
Best or Good; `0.0` when the player made no moves. -/
def GameReport.accuracy_percentage (r : GameReport) : ℚ :=
  if r.player_moves = [] then 0
  else
    let good := (r.player_moves.filter
      (fun m => m.classification == "Best" || m.classification == "Good")).length
    roundTo1 ((good : ℚ) / (r.player_moves.length : ℚ) * 100)

/-- Ordering used by `get_critical_moments`: `a` may precede `b` when
`abs(b.score_delta) ≤ abs(a.score_delta)` (descending by centipawn loss). -/
def lossLE (a b : MoveEvaluation) : Bool :=
  decide (|b.score_delta| ≤ |a.score_delta|)

/-- Python's stable `sorted(l, key=lambda m: abs(m.score_delta), reverse=True)`:
a stable descending sort by absolute score delta.  `List.mergeSort` with the
non-strict comparison `lossLE` keeps the left element first on ties, which is
exactly CPython's stable-sort behaviour with `reverse=True`. -/
def sortDescByLoss (l : List MoveEvaluation) : List MoveEvaluation :=
  l.mergeSort lossLE

/-- `GameReport.get_critical_moments`: the top-N most significant player
mistakes/blunders sorted by centipawn loss (worst first). -/
def GameReport.get_critical_moments (r : GameReport) (top_n : ℕ) : List MoveEvaluation :=
  let bad_moves := r.player_moves.filter
    (fun m => m.classification == "Mistake" || m.classification == "Blunder")
  (sortDescByLoss bad_moves).take top_n

/-- Python's `x or default` on an optional string: `None` and the empty
string (both falsy) give the default. -/
def pyOrString (o : Option String) (default : String) : String :=
  match o with
  | none => default
  | some s => if s = "" then default else s

/-- `Analyzer.analyse_game`: analyse every move in the recorded history and
return a `GameReport` of `MoveEvaluation`s.

The Stockfish engine is an external collaborator; its two observable
behaviours used here (`Analyzer._evaluate_fen`, which returns a
White-perspective centipawn score for a FEN, and `Analyzer._best_move_for_fen`,
which returns the engine's preferred move in SAN or `None`) are abstracted as
the function parameters `evalFn` and `bestFn`. -/
def analyse_game (evalFn : String → ℚ) (bestFn : String → Option String)
    (move_history : List MoveRecord) (player_color : String) : GameReport :=
  { evaluated_moves := move_history.map (fun record =>
      let eval_before := evalFn record.fen_before
      let eval_after := evalFn record.fen_after
      let best_move := bestFn record.fen_before
      -- From the perspective of the side that moved, a drop in eval is bad.
      let delta : ℚ :=
        if record.played_by = "white" then eval_after - eval_before
        else eval_before - eval_after
      { move_san := record.san
        fen_before := record.fen_before
        fen_after := record.fen_after
        eval_before := eval_before
        eval_after := eval_after
        best_move_san := pyOrString best_move "?"
        score_delta := delta
        played_by := record.played_by })
    total_moves := move_history.length
    player_color := player_color }

/-- The fixed-key mapping returned by `GameReport.summary_stats`. -/
structure SummaryStats where
  total_player_moves : ℕ
  blunders : ℕ
  mistakes : ℕ
  inaccuracies : ℕ
  accuracy : String
  deriving DecidableEq, Repr

/-- `GameReport.summary_stats`. -/
def GameReport.summary_stats (r : GameReport) : SummaryStats :=
  { total_player_moves := r.player_moves.length
    blunders := r.blunders.length
    mistakes := r.mistakes.length
    inaccuracies := r.inaccuracies.length
    accuracy := fmtAcc r.accuracy_percentage ++ "%" }

/-- Piece kinds of the external rules library (`python-chess`). -/
inductive PieceType where
  | pawn | knight | bishop | rook | queen | king
  deriving DecidableEq, Repr

/-- A piece: colour (`true` = White, as `chess.WHITE`) and kind. -/
structure Piece where
  color : Bool
  ptype : PieceType
  deriving DecidableEq, Repr

/-- Abstraction of a `python-chess` `Board` as the observables the analysed
code reads from it: the piece map (square ↦ piece, in the library's
iteration order), the side to move, check status, square attack queries and
king locations.  The rules library itself is an external collaborator. -/
structure Board where
  pieceMap : List (ℕ × Piece)
  turn : Bool
  isCheck : Bool
  attackedBy : Bool → ℕ → Bool
  kingSq : Bool → ℕ

/-- Number of queens of the given colour on the board
(`len(board.pieces(chess.QUEEN, color))`). -/
def Board.queenCount (b : Board) (color : Bool) : ℕ :=
  (b.pieceMap.filter (fun sp => sp.2.ptype = PieceType.queen ∧ sp.2.color = color)).length

/-- `Analyzer.infer_game_phase`: heuristic game phase detection from piece
count.  In the source the position arrives as a FEN string and is parsed by
the external rules library (`chess.Board(fen)`); the embedding takes the
parsed board directly. -/
def infer_game_phase (b : Board) : String :=
  let piece_count := b.pieceMap.length
  let queens := b.queenCount true + b.queenCount false
  if piece_count ≥ 28 then "Opening"
  else if piece_count ≤ 12 ∨ queens = 0 then "Endgame"
  else "Middlegame"

/-- `chess.piece_name(piece.piece_type).capitalize()`. -/
def pieceName : PieceType → String
  | PieceType.pawn => "Pawn"
  | PieceType.knight => "Knight"
  | PieceType.bishop => "Bishop"
  | PieceType.rook => "Rook"
  | PieceType.queen => "Queen"
  | PieceType.king => "King"

/-- `chess.square_name(sq)`: file letter then rank digit, square 0 = a1. -/
def squareName (sq : ℕ) : String :=
  String.mk [Char.ofNat (97 + sq % 8)] ++ toString (sq / 8 + 1)

namespace LiveCoach

/-- `LiveCoach.OPENING_TIPS`. -/
def OPENING_TIPS : List String :=
  [ "Opening principle: Control the centre with pawns to e4 or d4.",
    "Opening principle: Develop your knights and bishops early.",
    "Opening principle: Castle early to keep your king safe.",
    "Opening principle: Don\x27t move the same piece twice in the opening.",
    "Opening principle: Connect your rooks by castling and developing all pieces.",
    "Opening principle: Avoid moving your queen too early — it can be attacked.",
    "Opening principle: Each move should develop a piece or improve your position.",
    "Tip: Look for forks — moves that attack two pieces at once." ]

/-- `LiveCoach.MIDDLEGAME_TIPS`. -/
def MIDDLEGAME_TIPS : List String :=
  [ "Middlegame tip: Before moving, ask — can my opponent capture anything for free?",
    "Middlegame tip: Identify your opponent\x27s most dangerous piece and neutralise it.",
    "Middlegame tip: Look for checks, captures, and threats before making a quiet move.",
    "Middlegame tip: Rooks belong on open files — move pawns to open lines for them.",
    "Middlegame tip: Knights are strongest in the centre; bishops on open diagonals.",
    "Middlegame tip: Double-check — will this move leave a piece undefended?",
    "Middlegame tip: Look for outpost squares — squares where your knight can\x27t be chased.",
    "Middlegame tip: Coordinate your pieces — two pieces working together beat one powerful one." ]

/-- `LiveCoach.ENDGAME_TIPS`. -/
def ENDGAME_TIPS : List String :=
  [ "Endgame tip: Activate your king — it\x27s a powerful piece in the endgame.",
    "Endgame tip: Push passed pawns toward promotion.",
    "Endgame tip: The rook is most powerful behind a passed pawn.",
    "Endgame tip: In king + pawn endgames, opposition is key.",
    "Endgame tip: Eliminate your opponent\x27s passed pawns early." ]

/-- `LiveCoach.tip`: instant rule-based in-game tip.  The only external
facility it uses is `hashlib.md5` (the tip index is
`int(md5(str(move_count)).hexdigest(), 16) % len(tips)`); `md5` is a fixed
pure function of Python's standard library, abstracted here as the function
parameter `hash`.  No engine/evaluator is consulted: the definition's inputs
are exactly the board observables, the move count and the last move. -/
def tip (hash : String → ℕ) (board : Board) (move_count : ℕ)
    (last_move : Option MoveRecord) : String :=
  let piece_count := board.pieceMap.length
  let phaseTips : String × List String :=
    if piece_count ≥ 26 ∨ move_count ≤ 14 then ("Opening", OPENING_TIPS)
    else if piece_count ≤ 12 then ("Endgame", ENDGAME_TIPS)
    else ("Middlegame", MIDDLEGAME_TIPS)
  let phase := phaseTips.1
  let tips := phaseTips.2
  let tip_idx := hash (toString move_count) % tips.length
  let tip := tips.getD tip_idx ""   -- index is always in range: `% tips.length`
  -- Add threat detection bonus
  let extra : String :=
    if board.isCheck then
      "\n⚠️ Your king is in check! Find a safe square."
    else if board.attackedBy board.turn (board.kingSq (!board.turn)) then
      -- We are giving check
      "\n♟️ You\x27re giving check — look for follow-up tactics."
    else
      match last_move with
      | some lm =>
        if lm.played_by = "white" then
          -- Check if any white piece is hanging (first match in piece-map order)
          match board.pieceMap.find? (fun sp =>
              sp.2.color == true && board.attackedBy false sp.1
                && !board.attackedBy true sp.1) with
          | some sp =>
            "\n⚠️ Danger: your " ++ pieceName sp.2.ptype ++ " on "
              ++ squareName sp.1 ++ " may be undefended!"
          | none => ""
        else ""
      | none => ""
  "[" ++ phase ++ "] " ++ tip ++ extra

end LiveCoach

namespace RuleBasedFallback

/-- The list of lines built by `RuleBasedFallback.game_summary` before the
final `"\n".join(lines)`.  The FEN of the critical move is parsed by the
external rules library (`chess.Board(fen)` inside
`Analyzer.infer_game_phase`), abstracted as the `parseFen` parameter.
For the accuracy-threshold tip the source computes
`float(acc.rstrip(\x27%\x27)) >= 70`; since Python's `str`/`float` round-trip
the formatted accuracy string back to the exact same value, this is the
report's numeric accuracy compared with 70. -/
def game_summary_lines (parseFen : String → Board) (report : GameReport)
    (outcome : String) (player_elo : ℤ) : List String :=
  let stats := report.summary_stats
  let acc := stats.accuracy
  let blunders := stats.blunders
  let mistakes := stats.mistakes
  let inaccuracies := stats.inaccuracies
  let critical := report.get_critical_moments 1
  let lines : List String :=
    [ "Game Over: " ++ outcome,
      "",
      "Your accuracy this game: " ++ acc,
      "  • Blunders: " ++ toString blunders ++ "   Mistakes: " ++ toString mistakes
        ++ "   Inaccuracies: " ++ toString inaccuracies,
      "" ]
  let lines := lines ++
    match critical with
    | [] => []
    | m :: _ =>
      let phase := infer_game_phase (parseFen m.fen_before)
      [ "Most critical moment [" ++ phase ++ "]: " ++ m.move_san
          ++ " (" ++ m.classification ++ ")",
        "  Centipawn loss: " ++ fmt0 (min |m.score_delta| 999)
          ++ (if |m.score_delta| > 999 then "+ (decisive)" else "") ++ " cp",
        "  Engine suggested: " ++ m.best_move_san ++ " instead.",
        "" ]
  -- General tips based on stats
  let tipLine : String :=
    if blunders ≥ 3 then
      "📌 Tip: You had several blunders. Before each move, ask — does this leave a piece hanging?"
    else if mistakes ≥ 3 then
      "📌 Tip: A few mistakes cost you. Try to calculate at least 2 moves ahead before committing."
    else if report.accuracy_percentage ≥ 70 then
      "📌 Well played! Your accuracy was strong. Focus on converting advantages in the endgame."
    else
      "📌 Keep practising — consistency comes with time. Review the critical moments above."
  -- Ollama auto-starts in background — no nag message needed
  lines ++ [tipLine, "",
    "💡 AI coaching via Ollama will activate automatically on the next game."]

/-- `RuleBasedFallback.game_summary`: the joined multi-line summary text. -/
def game_summary (parseFen : String → Board) (report : GameReport)
    (outcome : String) (player_elo : ℤ) : String :=
  String.intercalate "\n" (game_summary_lines parseFen report outcome player_elo)

end RuleBasedFallback

/-!
## Game loop (`game_loop.GameLoop`)

The chess rules library (`python-chess`, the "rules authority") and the
engine are external collaborators.  `Rules` collects the operations the game
loop calls on them, over abstract types `B` (boards) and `M` (moves).
-/

/-- Operations of the external rules authority used by `GameLoop`. -/
structure Rules (B M : Type) where
  /-- `chess.Board()`: the starting position (also `engine.reset_board`). -/
  startBoard : B
  /-- `board.fen()` (via `engine.get_fen`). -/
  fen : B → String
  /-- `chess.Move.from_uci(uci)`; `none` models the `ValueError` raised on a
  malformed string. -/
  fromUci : String → Option M
  /-- `board.legal_moves`. -/
  legalMoves : B → List M
  /-- `board.san(move)`. -/
  san : B → M → String
  /-- `move.uci()`. -/
  uciOf : M → String
  /-- `board.push(move)`. -/
  push : B → M → B
  /-- `board.is_game_over()` (via `engine.is_game_over`). -/
  isGameOver : B → Bool
  /-- `board.turn == chess.WHITE`. -/
  turnWhite : B → Bool

/-- The mutable state of a `GameLoop` session: the engine's board plus the
loop's own fields.  `player_color` is set at construction (`true` = White)
and never written afterwards. -/
structure GameLoopState (B : Type) where
  board : B
  move_history : List MoveRecord
  move_counter : ℕ
  started : Bool
  player_color : Bool

/-- `GameLoop.__init__`: fresh board, empty history, counter 1, not started. -/
def initState {B M : Type} (r : Rules B M) (player_color : Bool) : GameLoopState B :=
  { board := r.startBoard
    move_history := []
    move_counter := 1
    started := false
    player_color := player_color }

/-- `GameLoop.new_game`: reset board and history for a fresh game. -/
def newGame {B M : Type} (r : Rules B M) (s : GameLoopState B) : GameLoopState B :=
  { s with board := r.startBoard, move_history := [], move_counter := 1, started := true }

/-- `GameLoop._record_move`: append a `MoveRecord` to the history.  The
wall-clock timestamp default is external; records carry `""`. -/
def recordMove {B : Type} (s : GameLoopState B) (played_by san uci fen_before fen_after : String) :
    GameLoopState B :=
  { s with move_history := s.move_history ++
      [{ move_number := s.move_counter
         played_by := played_by
         san := san
         uci := uci
         fen_before := fen_before
         fen_after := fen_after
         timestamp := "" }] }

/-- `GameLoop.apply_player_move`: apply a human player's move given in UCI
format; returns the success flag and the resulting session state. -/
def applyPlayerMove {B M : Type} [DecidableEq M] (r : Rules B M)
    (s : GameLoopState B) (uci_move : String) : Bool × GameLoopState B :=
  if ¬s.started ∨ r.turnWhite s.board ≠ s.player_color then (false, s)
  else
    let fen_before := r.fen s.board
    match r.fromUci uci_move with
    | none => (false, s)
    | some move =>
      if move ∉ r.legalMoves s.board then (false, s)
      else
        let san := r.san s.board move
        let board2 := r.push s.board move
        let s2 := recordMove { s with board := board2 }
          (if s.player_color then "white" else "black")
          san uci_move fen_before (r.fen board2)
        (true, s2)

/-- `GameLoop.apply_bot_move`: ask the engine for the bot's move, apply it,
record it.  The engine's reply (`self.engine._engine.play(...).move`) is an
external input, passed in as `engineResult`. -/
def applyBotMove {B M : Type} (r : Rules B M) (s : GameLoopState B)
    (engineResult : Option M) : Option String × GameLoopState B :=
  if ¬s.started ∨ r.turnWhite s.board = s.player_color ∨ r.isGameOver s.board then
    (none, s)
  else
    let fen_before := r.fen s.board
    match engineResult with
    | none => (none, s)
    | some move =>
      let san := r.san s.board move
      let uci := r.uciOf move
      let board2 := r.push s.board move
      let s2 := recordMove { s with board := board2 }
        (if s.player_color then "black" else "white")
        san uci fen_before (r.fen board2)
      -- `_should_increment_counter`: after Black's move the history length is even
      let s3 := if s2.move_history.length % 2 = 0
        then { s2 with move_counter := s2.move_counter + 1 } else s2
      (some san, s3)

/-!
## Test fixtures

Concrete values used by the witness theorems (mirroring the repository's
unit-test fixtures such as `make_eval`).
-/

/-- Fixture: a `MoveEvaluation` with a given delta and mover, like the test
suite's `make_eval`. -/
def mkEval (delta : ℚ) (played_by : String) : MoveEvaluation :=
  { move_san := "e4", fen_before := "f0", fen_after := "f1",
    eval_before := 0, eval_after := delta, best_move_san := "d4",
    score_delta := delta, played_by := played_by }

/-- Fixture: a white move record. -/
def demoRecord : MoveRecord :=
  { move_number := 1, played_by := "white", san := "e4", uci := "e2e4",
    fen_before := "startfen", fen_after := "afterfen", timestamp := "" }

/-- Fixture: the same positions, moved by Black. -/
def demoRecordBlack : MoveRecord :=
  { demoRecord with played_by := "black" }

/-- Fixture: an evaluation oracle giving 0 to `"startfen"` and 100 to
`"afterfen"` (White perspective). -/
def demoEvalFn : String → ℚ := fun fen => if fen = "afterfen" then 100 else 0

/-- Fixture: a best-move oracle that always suggests `"d4"`. -/
def demoBestFn : String → Option String := fun _ => some "d4"

/-- Fixture: a queen-less board with 20 pieces. -/
def demoBoard20 : Board :=
  { pieceMap := (List.range 20).map (fun i => (i, ⟨true, PieceType.pawn⟩)),
    turn := true, isCheck := false,
    attackedBy := fun _ _ => false, kingSq := fun _ => 4 }

/-- The `bad_moves` local list of `get_critical_moments`: player moves
classified Mistake or Blunder, in original move order. -/
def GameReport.badMoves (r : GameReport) : List MoveEvaluation :=
  r.player_moves.filter
    (fun m => m.classification == "Mistake" || m.classification == "Blunder")

/-- One observable operation of a `GameLoop` session: `new_game`,
`apply_player_move` (with an arbitrary UCI string), or `apply_bot_move`
(with an arbitrary engine reply). -/
inductive GameStep {B M : Type} [DecidableEq M] (r : Rules B M) :
    GameLoopState B → GameLoopState B → Prop
  | new_game (s : GameLoopState B) : GameStep r s (newGame r s)
  | player_move (s : GameLoopState B) (uci : String) :
      GameStep r s (applyPlayerMove r s uci).2
  | bot_move (s : GameLoopState B) (engineResult : Option M) :
      GameStep r s (applyBotMove r s engineResult).2

/-- States reachable from a freshly constructed `GameLoop` by any sequence
of `new_game` / `apply_player_move` / `apply_bot_move` operations. -/
def Reachable {B M : Type} [DecidableEq M] (r : Rules B M) (player_color : Bool)
    (s : GameLoopState B) : Prop :=
  Relation.ReflTransGen (GameStep r) (initState r player_color) s

/-- The chained-position invariant of the move record log: `fen_after` of
each record equals `fen_before` of the next. -/
def Chained (l : List MoveRecord) : Prop :=
  l.Chain' (fun a b => a.fen_after = b.fen_before)

/-- Induction invariant: the history is chained and its last record's
`fen_after` is the current board's FEN. -/
def ChainInv {B M : Type} (r : Rules B M) (s : GameLoopState B) : Prop :=
  Chained s.move_history ∧
  ∀ last ∈ s.move_history.getLast?, last.fen_after = r.fen s.board

/-- Fixture: a middlegame board used by the live-tip witness (13 pieces, no
check, no attacks), written twice below to feed two separate calls. -/
def demoBoardA : Board :=
  { pieceMap := (List.range 13).map (fun i => (i, ⟨true, PieceType.pawn⟩)),
    turn := true, isCheck := false,
    attackedBy := fun _ _ => false, kingSq := fun _ => 4 }

/-- Fixture: a second, identically-valued copy of `demoBoardA`. -/
def demoBoardB : Board :=
  { pieceMap := (List.range 13).map (fun i => (i, ⟨true, PieceType.pawn⟩)),
    turn := true, isCheck := false,
    attackedBy := fun _ _ => false, kingSq := fun _ => 4 }

/-- Fixture: an arbitrary fixed stand-in for the `hashlib.md5`-derived
integer hash. -/
def demoHash : String → ℕ := fun s => s.length * 7 + 3

/-- Fixture: a toy rules authority over `ℕ` boards and `String` moves, used
to drive the game-loop theorems on concrete inputs. -/
def demoRules : Rules ℕ String :=
  { startBoard := 0
    fen := fun b => toString b
    fromUci := fun u => if u = "xx" then none else some u
    legalMoves := fun _ => ["e2e4", "e7e5"]
    san := fun _ m => m
    uciOf := fun m => m
    push := fun b _ => b + 1
    isGameOver := fun _ => false
    turnWhite := fun b => b % 2 = 0 }

/-- Fixture: a report whose single player move lost 1500 centipawns. -/
def demoReportBig : GameReport :=
  GameReport.mk [mkEval (-1500) "white"] 1 "white"

/-- Fixture: a report whose single player move lost 150 centipawns. -/
def demoReportSmall : GameReport :=
  GameReport.mk [mkEval (-150) "white"] 1 "white"

/-!
## Theorems for the claims
-/

/-- **C1.** The classification of a `MoveEvaluation` is a total pure function
of `abs(score_delta)` partitioning the values exactly as the spec table:
`< 10` Best, `[10, 50)` Good, `[50, 100)` Inaccuracy, `[100, 200)` Mistake,
`≥ 200` Blunder; the boundary values 10, 50, 100, 200 land on Good,
Inaccuracy, Mistake, Blunder respectively. -/
theorem claim1_classification_partition :
    (∀ m : MoveEvaluation,
      (|m.score_delta| < 10 → m.classification = "Best") ∧
      (10 ≤ |m.score_delta| → |m.score_delta| < 50 → m.classification = "Good") ∧
      (50 ≤ |m.score_delta| → |m.score_delta| < 100 → m.classification = "Inaccuracy") ∧
      (100 ≤ |m.score_delta| → |m.score_delta| < 200 → m.classification = "Mistake") ∧
      (200 ≤ |m.score_delta| → m.classification = "Blunder")) ∧
    (∀ m₁ m₂ : MoveEvaluation, |m₁.score_delta| = |m₂.score_delta| →
      m₁.classification = m₂.classification) ∧
    (∀ m : MoveEvaluation,
      (|m.score_delta| = 10 → m.classification = "Good") ∧
      (|m.score_delta| = 50 → m.classification = "Inaccuracy") ∧
      (|m.score_delta| = 100 → m.classification = "Mistake") ∧
      (|m.score_delta| = 200 → m.classification = "Blunder")) := by
  refine ⟨fun m => ?_, fun m₁ m₂ h => ?_, fun m => ?_⟩
  · unfold MoveEvaluation.classification
    dsimp only
    refine ⟨fun h1 => ?_, fun h1 h2 => ?_, fun h1 h2 => ?_, fun h1 h2 => ?_, fun h1 => ?_⟩ <;>
      split_ifs <;> first | rfl | linarith
  · unfold MoveEvaluation.classification
    rw [h]
  · unfold MoveEvaluation.classification
    refine ⟨fun h => ?_, fun h => ?_, fun h => ?_, fun h => ?_⟩ <;>
      rw [h] <;> norm_num

/-- Witness for C1 at concrete deltas 5 and 200. -/
theorem claim1_witness :
    (mkEval 5 "white").classification = "Best" ∧
    (mkEval (-200) "white").classification = "Blunder" :=
  ⟨(claim1_classification_partition.1 (mkEval 5 "white")).1 (by norm_num [mkEval]),
   (claim1_classification_partition.1 (mkEval (-200) "white")).2.2.2.2 (by norm_num [mkEval])⟩

/-- **C2.** For every record analysed by `Analyzer.analyse_game`, the stored
`score_delta` is `eval_after − eval_before` for a white-played move and
`eval_before − eval_after` for any other mover (both White-perspective), so a
positive delta means the move was good for the side that just moved. -/
theorem claim2_score_delta_mover_centric (evalFn : String → ℚ)
    (bestFn : String → Option String) (history : List MoveRecord)
    (pc : String) (i : ℕ) (h : i < history.length) :
    ((analyse_game evalFn bestFn history pc).evaluated_moves.get
        ⟨i, by simpa [analyse_game] using h⟩).score_delta =
      if (history.get ⟨i, h⟩).played_by = "white" then
        evalFn (history.get ⟨i, h⟩).fen_after - evalFn (history.get ⟨i, h⟩).fen_before
      else
        evalFn (history.get ⟨i, h⟩).fen_before - evalFn (history.get ⟨i, h⟩).fen_after := by
  simp [analyse_game, List.get_eq_getElem]

/-- Witness for C2: `eval_before = 0`, `eval_after = 100` gives
`score_delta = +100` for the white-played move and `−100` for the
black-played move. -/
theorem claim2_witness :
    ((analyse_game demoEvalFn demoBestFn [demoRecord, demoRecordBlack] "white").evaluated_moves.get
        ⟨0, by simp [analyse_game]⟩).score_delta = 100 ∧
    ((analyse_game demoEvalFn demoBestFn [demoRecord, demoRecordBlack] "white").evaluated_moves.get
        ⟨1, by simp [analyse_game]⟩).score_delta = -100 := by
  constructor
  · have h := claim2_score_delta_mover_centric demoEvalFn demoBestFn
      [demoRecord, demoRecordBlack] "white" 0 (by simp)
    simpa [demoRecord, demoRecordBlack, demoEvalFn] using h
  · have h := claim2_score_delta_mover_centric demoEvalFn demoBestFn
      [demoRecord, demoRecordBlack] "white" 1 (by simp)
    simpa [demoRecord, demoRecordBlack, demoEvalFn] using h

/-- **C4.** `accuracy_percentage` is `100 × count(Best or Good) /
count(player moves)` rounded to one decimal place, and exactly `0` when the
player made zero moves (never an error). -/
theorem claim4_accuracy_percentage (r : GameReport) :
    (r.player_moves = [] → r.accuracy_percentage = 0) ∧
    (r.player_moves ≠ [] →
      r.accuracy_percentage =
        roundTo1 (100 * (r.player_moves.countP
            (fun m => m.classification == "Best" || m.classification == "Good") : ℚ)
          / (r.player_moves.length : ℚ))) := by
  constructor
  · intro h
    simp [GameReport.accuracy_percentage, h]
  · intro h
    simp only [GameReport.accuracy_percentage, if_neg h, List.countP_eq_length_filter]
    ring_nf

/-- Witness for C4: the empty report has accuracy exactly 0, and a one-move
all-good report has accuracy 100. -/
theorem claim4_witness :
    (GameReport.mk [] 0 "white").accuracy_percentage = 0 ∧
    (GameReport.mk [mkEval 5 "white"] 1 "white").accuracy_percentage =
      roundTo1 (100 * 1 / 1) := by
  constructor
  · exact (claim4_accuracy_percentage (GameReport.mk [] 0 "white")).1 (by
      simp [GameReport.player_moves])
  · have h := (claim4_accuracy_percentage (GameReport.mk [mkEval 5 "white"] 1 "white")).2 (by
      simp [GameReport.player_moves, mkEval])
    rw [h]
    congr 1

/-- **C5.** `Analyzer.infer_game_phase` returns `"Opening"` when the piece
count is ≥ 28, otherwise `"Endgame"` when the piece count is ≤ 12 or no
queens remain, and `"Middlegame"` otherwise. -/
theorem claim5_game_phase (b : Board) :
    (b.pieceMap.length ≥ 28 → infer_game_phase b = "Opening") ∧
    (b.pieceMap.length < 28 →
      (b.pieceMap.length ≤ 12 ∨ b.queenCount true + b.queenCount false = 0) →
      infer_game_phase b = "Endgame") ∧
    (b.pieceMap.length < 28 → 12 < b.pieceMap.length →
      b.queenCount true + b.queenCount false ≠ 0 →
      infer_game_phase b = "Middlegame") := by
  unfold infer_game_phase
  dsimp only
  refine ⟨fun h => ?_, fun h1 h2 => ?_, fun h1 h2 h3 => ?_⟩ <;>
    split_ifs <;> first | rfl | omega

/-- Witness for C5: a queen-less position with 20 pieces is `"Endgame"`
(the queens-equal-zero condition overrides the piece count). -/
theorem claim5_witness : infer_game_phase demoBoard20 = "Endgame" :=
  (claim5_game_phase demoBoard20).2.1 (by decide) (Or.inr (by decide))

/-- **C7 (counterexample).** When the evaluator returns no best move, the
recorded sentinel is the string `"?"`, not the string `"unknown"`. -/
theorem claim7_counterexample :
    ((analyse_game (fun _ => 0) (fun _ => none) [demoRecord] "white").evaluated_moves.map
        MoveEvaluation.best_move_san) = ["?"] ∧ ("?" : String) ≠ "unknown" := by
  constructor
  · simp [analyse_game, pyOrString]
  · decide

/-- **C7 (amended).** When the evaluator returns no best move for a record's
position-before, the `best_move_san` of the resulting evaluation is the
explicit non-null sentinel string `"?"` rather than a null/absent value. -/
theorem claim7_question_mark_sentinel (evalFn : String → ℚ)
    (bestFn : String → Option String) (history : List MoveRecord)
    (pc : String) (i : ℕ) (h : i < history.length)
    (hnone : bestFn ((history.get ⟨i, h⟩).fen_before) = none) :
    ((analyse_game evalFn bestFn history pc).evaluated_moves.get
        ⟨i, by simpa [analyse_game] using h⟩).best_move_san = "?" := by
  simp only [List.get_eq_getElem] at hnone
  simp [analyse_game, List.get_eq_getElem, pyOrString, hnone]

/-- Witness for C7 (amended) at a concrete one-record history with an
evaluator that finds no best move. -/
theorem claim7_witness :
    ((analyse_game (fun _ => 0) (fun _ => none) [demoRecord] "white").evaluated_moves.get
        ⟨0, by simp [analyse_game]⟩).best_move_san = "?" :=
  claim7_question_mark_sentinel (fun _ => 0) (fun _ => none) [demoRecord] "white" 0
    (by simp) rfl


/-- **C6.** `LiveCoach.tip` is deterministic: two calls with identical board
state, move count and last move return the identical string.  The tip index
is `hash(str(move_count)) % len(tips)` for the fixed pure hash function
(`hashlib.md5`), abstracted as the explicit parameter `hash`; the definition
of `tip` takes no evaluator/engine input at all, so its output cannot depend
on the Position Evaluator. -/
theorem claim6_tip_deterministic (hash : String → ℕ) (b₁ b₂ : Board)
    (mc₁ mc₂ : ℕ) (lm₁ lm₂ : Option MoveRecord)
    (hb : b₁ = b₂) (hm : mc₁ = mc₂) (hl : lm₁ = lm₂) :
    LiveCoach.tip hash b₁ mc₁ lm₁ = LiveCoach.tip hash b₂ mc₂ lm₂ := by
  rw [hb, hm, hl]

/-- Witness for C6: two calls on separately constructed but equal inputs
agree. -/
theorem claim6_witness :
    LiveCoach.tip demoHash demoBoardA 20 none = LiveCoach.tip demoHash demoBoardB 20 none :=
  claim6_tip_deterministic demoHash demoBoardA demoBoardB 20 20 none none rfl rfl rfl


theorem get_critical_moments_eq (r : GameReport) (n : ℕ) :
    r.get_critical_moments n = (sortDescByLoss r.badMoves).take n := rfl

theorem lossLE_trans : ∀ a b c : MoveEvaluation, lossLE a b → lossLE b c → lossLE a c := by
  intro a b c hab hbc
  simp only [lossLE, decide_eq_true_eq] at *
  exact le_trans hbc hab

theorem lossLE_total : ∀ a b : MoveEvaluation, lossLE a b || lossLE b a := by
  intro a b
  simp only [lossLE, Bool.or_eq_true, decide_eq_true_eq]
  exact le_total _ _

/-- The stable sort permutes its input. -/
theorem sortDescByLoss_perm (l : List MoveEvaluation) : (sortDescByLoss l).Perm l :=
  List.mergeSort_perm l lossLE

/-- The stable sort yields a list descending in absolute score delta. -/
theorem sortDescByLoss_pairwise (l : List MoveEvaluation) :
    (sortDescByLoss l).Pairwise (fun a b => |b.score_delta| ≤ |a.score_delta|) :=
  (List.sorted_mergeSort lossLE_trans lossLE_total l).imp
    (fun h => by simpa [lossLE] using h)

/-- Stability of the sort: the entries having any fixed absolute score delta
appear in the output in exactly their input order. -/
theorem sortDescByLoss_filter_key (l : List MoveEvaluation) (k : ℚ) :
    (sortDescByLoss l).filter (fun m => decide (|m.score_delta| = k)) =
      l.filter (fun m => decide (|m.score_delta| = k)) := by
  set p : MoveEvaluation → Bool := fun m => decide (|m.score_delta| = k) with hp
  have hkey : ∀ a ∈ l.filter p, |a.score_delta| = k := by
    intro a ha
    have := List.of_mem_filter ha
    simpa [hp] using this
  have hc_pair : (l.filter p).Pairwise (fun a b => lossLE a b = true) := by
    apply List.pairwise_of_forall_mem_list
    intro a ha b hb
    simp only [lossLE, decide_eq_true_eq]
    rw [hkey a ha, hkey b hb]
  have hsub : List.Sublist (l.filter p) (sortDescByLoss l) :=
    List.sublist_mergeSort lossLE_trans lossLE_total hc_pair (List.filter_sublist l)
  have hidem : (l.filter p).filter p = l.filter p :=
    List.filter_eq_self.mpr (fun a ha => List.of_mem_filter ha)
  have h1 : List.Sublist (l.filter p) ((sortDescByLoss l).filter p) := by
    have := hsub.filter p
    rwa [hidem] at this
  have h2 : ((sortDescByLoss l).filter p).Perm (l.filter p) :=
    (sortDescByLoss_perm l).filter p
  exact (h1.eq_of_length h2.length_eq.symm).symm

/-- Every critical moment is a player move classified Mistake or Blunder. -/
theorem mem_critical (r : GameReport) (n : ℕ) (m : MoveEvaluation)
    (hm : m ∈ r.get_critical_moments n) :
    m ∈ r.player_moves ∧ (m.classification = "Mistake" ∨ m.classification = "Blunder") := by
  rw [get_critical_moments_eq] at hm
  have hm2 : m ∈ sortDescByLoss r.badMoves := List.mem_of_mem_take hm
  have hm3 : m ∈ r.badMoves := by
    rw [sortDescByLoss] at hm2
    exact List.mem_mergeSort.1 hm2
  have := List.mem_filter.1 hm3
  refine ⟨this.1, ?_⟩
  have h := this.2
  simp only [Bool.or_eq_true, beq_iff_eq] at h
  exact h

/-- **C3.** `get_critical_moments(n)` is exactly the player's Mistake/Blunder
moves, stably sorted descending by `abs(score_delta)`, truncated to at most
`n` entries: the result is the `n`-prefix of a stable descending sort of the
filtered list, has length ≤ n, is pairwise descending, every entry is a
player move classified Mistake or Blunder, ties keep their original move
order, and an empty filtered list gives the empty result. -/
theorem claim3_critical_moments (r : GameReport) (n : ℕ) :
    r.get_critical_moments n = (sortDescByLoss r.badMoves).take n ∧
    (r.get_critical_moments n).length ≤ n ∧
    (sortDescByLoss r.badMoves).Perm r.badMoves ∧
    (r.get_critical_moments n).Pairwise
      (fun a b => |b.score_delta| ≤ |a.score_delta|) ∧
    (∀ k : ℚ, (sortDescByLoss r.badMoves).filter (fun m => decide (|m.score_delta| = k)) =
      r.badMoves.filter (fun m => decide (|m.score_delta| = k))) ∧
    (∀ m ∈ r.get_critical_moments n,
      m ∈ r.player_moves ∧ (m.classification = "Mistake" ∨ m.classification = "Blunder")) ∧
    (r.badMoves = [] → r.get_critical_moments n = []) := by
  refine ⟨get_critical_moments_eq r n, ?_, sortDescByLoss_perm _, ?_,
    fun k => sortDescByLoss_filter_key _ k, fun m hm => mem_critical r n m hm, fun h => ?_⟩
  · rw [get_critical_moments_eq]
    exact List.length_take_le n _
  · rw [get_critical_moments_eq]
    exact (sortDescByLoss_pairwise _).take
  · rw [get_critical_moments_eq, h]
    simp [sortDescByLoss]

/-- Witness for C3 on a concrete three-move report. -/
theorem claim3_witness :
    ((GameReport.mk [mkEval (-100) "white", mkEval (-300) "white", mkEval 5 "white"]
      3 "white").get_critical_moments 2).length ≤ 2 :=
  (claim3_critical_moments
    (GameReport.mk [mkEval (-100) "white", mkEval (-300) "white", mkEval 5 "white"]
      3 "white") 2).2.1


theorem chainInv_initState {B M : Type} (r : Rules B M) (pc : Bool) :
    ChainInv r (initState (M := M) r pc) := by
  constructor
  · exact List.chain'_nil
  · intro last h
    simp [initState] at h

theorem chainInv_newGame {B M : Type} (r : Rules B M) (s : GameLoopState B) :
    ChainInv r (newGame (M := M) r s) := by
  constructor
  · exact List.chain'_nil
  · intro last h
    simp [newGame] at h

/-- Appending a record whose `fen_before` is the current board's FEN and
whose `fen_after` is the FEN of the board it installs preserves `ChainInv`. -/
theorem chainInv_recordMove {B M : Type} (r : Rules B M) (s : GameLoopState B)
    (board2 : B) (pb sn uc : String) (h : ChainInv r s) :
    ChainInv r (recordMove { s with board := board2 } pb sn uc
      (r.fen s.board) (r.fen board2)) := by
  obtain ⟨hchain, hlast⟩ := h
  constructor
  · rw [Chained, recordMove]
    simp only [List.chain'_append]
    refine ⟨hchain, List.chain'_singleton _, ?_⟩
    intro x hx y hy
    simp only [List.head?_cons, Option.mem_def, Option.some.injEq] at hy
    subst hy
    exact hlast x hx
  · intro last hl
    rw [recordMove] at hl
    simp only [List.getLast?_concat, Option.mem_def, Option.some.injEq] at hl
    subst hl
    rfl

theorem chainInv_playerMove {B M : Type} [DecidableEq M] (r : Rules B M)
    (s : GameLoopState B) (uci : String) (h : ChainInv r s) :
    ChainInv r (applyPlayerMove r s uci).2 := by
  rw [applyPlayerMove]
  split
  · exact h
  · cases hres : r.fromUci uci with
    | none => simpa [hres] using h
    | some m =>
      simp only [hres]
      split
      · exact h
      · exact chainInv_recordMove r s _ _ _ _ h

theorem chainInv_botMove {B M : Type} [DecidableEq M] (r : Rules B M)
    (s : GameLoopState B) (engineResult : Option M) (h : ChainInv r s) :
    ChainInv r (applyBotMove r s engineResult).2 := by
  rw [applyBotMove]
  split
  · exact h
  · cases engineResult with
    | none => exact h
    | some m =>
      dsimp only
      set pb := (if s.player_color then "black" else "white") with hpb
      have h2 := chainInv_recordMove r s (r.push s.board m) pb
        (r.san s.board m) (r.uciOf m) h
      split
      · exact ⟨h2.1, h2.2⟩
      · exact h2

theorem chainInv_reachable {B M : Type} [DecidableEq M] (r : Rules B M)
    (pc : Bool) (s : GameLoopState B) (h : Reachable r pc s) : ChainInv r s := by
  induction h with
  | refl => exact chainInv_initState r pc
  | tail _ hstep ih =>
    cases hstep with
    | new_game => exact chainInv_newGame r _
    | player_move => exact chainInv_playerMove r _ _ ih
    | bot_move => exact chainInv_botMove r _ _ ih

/-- **C9.** In every session state reachable by any sequence of `new_game`,
`apply_player_move` and `apply_bot_move` operations, the move history is
chained: `fen_after` of record `i` equals `fen_before` of record `i+1` for
every pair of consecutive records. -/
theorem claim9_chained_history {B M : Type} [DecidableEq M] (r : Rules B M)
    (pc : Bool) (s : GameLoopState B) (h : Reachable r pc s) :
    Chained s.move_history :=
  (chainInv_reachable r pc s h).1


/-- Witness for C9: a concrete reachable two-move history is chained. -/
theorem claim9_witness :
    Chained ((applyBotMove demoRules
      ((applyPlayerMove demoRules (newGame demoRules (initState demoRules true)) "e2e4").2)
      (some "e7e5")).2).move_history :=
  claim9_chained_history demoRules true _
    (Relation.ReflTransGen.tail
      (Relation.ReflTransGen.tail
        (Relation.ReflTransGen.tail Relation.ReflTransGen.refl
          (GameStep.new_game _))
        (GameStep.player_move _ "e2e4"))
      (GameStep.bot_move _ (some "e7e5")))

/-- **C8.** For every session state and every illegal or malformed UCI move
string, `apply_player_move` returns `False` and leaves the session state
completely unchanged: same board, same move history, no record appended. -/
theorem claim8_reject_atomic {B M : Type} [DecidableEq M] (r : Rules B M)
    (s : GameLoopState B) (uci : String)
    (hbad : ∀ m, r.fromUci uci = some m → m ∉ r.legalMoves s.board) :
    applyPlayerMove r s uci = (false, s) := by
  rw [applyPlayerMove]
  split
  · rfl
  · cases hres : r.fromUci uci with
    | none => simp [hres]
    | some m => simp [hres, hbad m hres]

/-- Witness for C8: a malformed string and a parsed-but-illegal move are both
rejected with the state unchanged, on a concrete started session. -/
theorem claim8_witness :
    applyPlayerMove demoRules (newGame demoRules (initState demoRules true)) "xx" =
      (false, newGame demoRules (initState demoRules true)) ∧
    applyPlayerMove demoRules (newGame demoRules (initState demoRules true)) "g1f3" =
      (false, newGame demoRules (initState demoRules true)) := by
  constructor
  · exact claim8_reject_atomic demoRules _ "xx" (by intro m hm; simp [demoRules] at hm)
  · exact claim8_reject_atomic demoRules _ "g1f3" (by
      intro m hm
      simp only [demoRules, if_neg (by decide : ¬("g1f3" = "xx")), Option.some.injEq] at hm
      subst hm
      decide)

theorem fmt0_999 : fmt0 999 = "999" := by
  norm_num [fmt0, roundHalfEven]
  decide

/-- **C10.** In the rule-based fallback game summary, the centipawn-loss line
for the worst critical moment is capped at 999: when `abs(score_delta)`
exceeds 999 the line reads `999+ (decisive)`, otherwise the true loss is
shown uncapped; the underlying report still contains the move with its
uncapped `score_delta`. -/
theorem claim10_cp_loss_cap (parseFen : String → Board) (r : GameReport)
    (outcome : String) (elo : ℤ) (m : MoveEvaluation)
    (hc : r.get_critical_moments 1 = [m]) :
    ((RuleBasedFallback.game_summary_lines parseFen r outcome elo)[6]? =
      some (if 999 < |m.score_delta|
        then "  Centipawn loss: 999+ (decisive) cp"
        else "  Centipawn loss: " ++ fmt0 |m.score_delta| ++ " cp")) ∧
    m ∈ r.evaluated_moves := by
  constructor
  · rw [RuleBasedFallback.game_summary_lines]
    dsimp only
    rw [hc]
    by_cases hgt : 999 < |m.score_delta|
    · rw [if_pos hgt]
      have hmin : min |m.score_delta| 999 = 999 := min_eq_right (le_of_lt hgt)
      simp only [hmin, fmt0_999, gt_iff_lt, if_pos hgt, List.cons_append,
        List.nil_append]
      rfl
    · rw [if_neg hgt]
      have hmin : min |m.score_delta| 999 = |m.score_delta| :=
        min_eq_left (not_lt.1 hgt)
      simp only [hmin, gt_iff_lt, if_neg hgt, String.append_empty,
        List.cons_append, List.nil_append]
      rfl
  · have hm : m ∈ r.get_critical_moments 1 := by rw [hc]; exact List.mem_singleton_self m
    exact List.mem_of_mem_filter (mem_critical r 1 m hm).1


theorem demoReportBig_critical : demoReportBig.get_critical_moments 1 = [mkEval (-1500) "white"] := by
  simp +decide [demoReportBig, GameReport.get_critical_moments, GameReport.player_moves,
    mkEval, MoveEvaluation.classification, sortDescByLoss]

theorem demoReportSmall_critical : demoReportSmall.get_critical_moments 1 = [mkEval (-150) "white"] := by
  simp +decide [demoReportSmall, GameReport.get_critical_moments, GameReport.player_moves,
    mkEval, MoveEvaluation.classification, sortDescByLoss]

/-- Witness for C10: the 1500-centipawn blunder displays as
`999+ (decisive)`, the 150-centipawn mistake displays uncapped. -/
theorem claim10_witness :
    ((RuleBasedFallback.game_summary_lines (fun _ => demoBoard20) demoReportBig "o" 1000)[6]? =
      some "  Centipawn loss: 999+ (decisive) cp") ∧
    ((RuleBasedFallback.game_summary_lines (fun _ => demoBoard20) demoReportSmall "o" 1000)[6]? =
      some ("  Centipawn loss: " ++ fmt0 150 ++ " cp")) := by
  constructor
  · have h := (claim10_cp_loss_cap (fun _ => demoBoard20) demoReportBig "o" 1000
      (mkEval (-1500) "white") demoReportBig_critical).1
    simpa [mkEval, abs_of_nonpos, if_pos (by norm_num : (999:ℚ) < 1500)] using h
  · have h := (claim10_cp_loss_cap (fun _ => demoBoard20) demoReportSmall "o" 1000
      (mkEval (-150) "white") demoReportSmall_critical).1
    simpa [mkEval, abs_of_nonpos, if_neg (by norm_num : ¬((999:ℚ) < 150))] using h

end Chess
